import Mathlib

/-!
# Verification of the firewall-ui frontend against its specification

This file gives a shallow embedding of the parts of the `firewall-ui`
repository (a React frontend over a firewall-management HTTP API) that the
specification's claims are about, and proves or refutes each claim.

Conventions:
* Pure functions of the TypeScript source become Lean functions.
* JavaScript `x || y` on strings (falsy = empty string) is modelled by `jsOr`.
* HTTP requests issued through the axios client in
  `frontend/src/services/api.ts` are modelled as `ApiRequest` values.
* Components of the Python backend service that are not part of the sources
  (backend probe, backend adapters, reconciliation coordinator) are modelled
  from the specification; each such definition is marked
  `Modelled from the spec:` in its doc comment.
-/

namespace FirewallUI

/-- The four firewall backends, from `type FirewallBackend` in the
Firewall page. -/
inductive Backend
  | ufw
  | iptables
  | firewalld
  | nftables
deriving DecidableEq, Repr, Fintype

/-- HTTP method of an axios call. -/
inductive Method
  | get
  | post
  | httpDelete
deriving DecidableEq, Repr

/-- One HTTP request issued through the axios client of
`frontend/src/services/api.ts` (the base URL prefix is omitted). -/
structure ApiRequest where
  method : Method
  path : String
deriving DecidableEq, Repr

/-- Call `firewallApi.addUfwRule` : `api.post('/firewall/ufw/rules', rule)`. -/
def addUfwRule : ApiRequest := ⟨Method.post, "/firewall/ufw/rules"⟩

/-- Call `firewallApi.deleteUfwRule` : `api.delete('/firewall/ufw/rules/' + ruleId)`. -/
def deleteUfwRuleReq (ruleId : String) : ApiRequest :=
  ⟨Method.httpDelete, "/firewall/ufw/rules/" ++ ruleId⟩

/-- Call `firewallApi.enableUfw` : `api.post('/firewall/ufw/enable')`. -/
def enableUfw : ApiRequest := ⟨Method.post, "/firewall/ufw/enable"⟩

/-- Call `firewallApi.disableUfw` : `api.post('/firewall/ufw/disable')`. -/
def disableUfw : ApiRequest := ⟨Method.post, "/firewall/ufw/disable"⟩

/-- Whether `pre` is a leading segment of the path `p` (on the character
lists of the two strings). -/
def pathStartsWith (pre p : String) : Bool :=
  p.toList.take pre.length == pre.toList

/-- Which backend's endpoint an API path addresses, read off from the path
groups of `firewallApi` (`/firewall/ufw/...`, `/firewall/iptables/...`,
`/firewall/firewalld/...`, `/firewall/nftables/...`). -/
def endpointBackend (p : String) : Option Backend :=
  if pathStartsWith "/firewall/ufw/" p then some Backend.ufw
  else if pathStartsWith "/firewall/iptables/" p then some Backend.iptables
  else if pathStartsWith "/firewall/firewalld/" p then some Backend.firewalld
  else if pathStartsWith "/firewall/nftables/" p then some Backend.nftables
  else none

/-- The add-rule form state of `AddRuleModal` (action, direction, port,
protocol, fromIp, comment). -/
structure AddRuleForm where
  action : String
  direction : String
  port : String
  protocol : String
  fromIp : String
  comment : String
deriving DecidableEq, Repr

/-- Handler `handleSubmit` of `AddRuleModal`: if the port field is empty only an
error toast is shown and no request is issued; otherwise
`addRuleMutation.mutate` runs `firewallApi.addUfwRule`.  The component
receives the selected backend as prop `backend` but binds it to the unused
name `_backend`; the request does not depend on it. -/
def handleSubmitAddRule (_backend : Backend) (form : AddRuleForm) : Option ApiRequest :=
  if form.port = "" then none else some addUfwRule

/-- The mutating firewall operations of the Firewall page covered by the
claim: submitting the add-rule form, and the enable/disable buttons. -/
inductive MutatingOp
  | addRule (form : AddRuleForm)
  | enable
  | disable
deriving DecidableEq, Repr

/-- The request issued for a mutating operation of the Firewall page with
`selected` as the currently selected backend: the add-rule form posts via
`handleSubmitAddRule`, the enable/disable buttons run `firewallApi.enableUfw`
and `firewallApi.disableUfw`.  None of the three consults `selected`. -/
def opRequest (selected : Backend) (op : MutatingOp) : Option ApiRequest :=
  match op with
  | MutatingOp.addRule form => handleSubmitAddRule selected form
  | MutatingOp.enable => some enableUfw
  | MutatingOp.disable => some disableUfw

/-! ## Listening ports (Ports page) -/

/-- A listening-port entry as consumed by the Ports page (`interface
PortInfo`); optional fields of the TypeScript interface are `Option`s, the
optional boolean `is_public` is a `Bool` with `false` for `undefined`
(both are falsy). -/
structure PortInfo where
  port : Nat
  protocol : String
  address : Option String
  is_public : Bool
deriving DecidableEq, Repr

/-- The public-classification used both for the `stats.public` counter and
for the address-cell highlighting of the Ports page:
`p.address === '0.0.0.0' || p.address === '::' || p.address === '*' || p.is_public`. -/
def isPublicEntry (p : PortInfo) : Bool :=
  p.address == some "0.0.0.0" || p.address == some "::" || p.address == some "*" || p.is_public

/-- Counter `stats.public` of the Ports page: the number of listening-port entries
satisfying `isPublicEntry`. -/
def publicStat (listeningPorts : List PortInfo) : Nat :=
  (listeningPorts.filter isPublicEntry).length

/-- Modelled from the spec: the `is_public` flag of a listening-port entry
is computed by the Python backend service, which is not among the sources;
spec §4.4: a bind address of exactly `0.0.0.0`, `::`, or `*` is public by
definition, any non-loopback bind address is conservatively flagged public,
and a loopback bind (`127.0.0.1`, `::1`) is not public. -/
def specIsPublic (addr : String) : Bool :=
  addr == "0.0.0.0" || addr == "::" || addr == "*" ||
    !(addr == "127.0.0.1" || addr == "::1")

/-! ## Rule JSON consumed by the Firewall rules table -/

/-- A firewall-rule JSON object as delivered to the presentation layer,
modelled as an association list of string fields; an absent field reads as
the empty string (falsy, like `undefined`). -/
abbrev RuleJson : Type := List (String × String)

/-- Property access `rule.k` on a rule JSON object, with `""` for an
absent field. -/
def jsLookup (rule : RuleJson) (k : String) : String :=
  match rule.find? (fun kv => kv.1 == k) with
  | some kv => kv.2
  | none => ""

/-- JavaScript `a || b` on strings: falsy is the empty string. -/
def jsOr (a b : String) : String :=
  if a = "" then b else a

/-- The Port/App cell of the Firewall rules table:
`rule.port || rule.app || rule.to || 'any'`. -/
def portCell (rule : RuleJson) : String :=
  jsOr (jsLookup rule "port") (jsOr (jsLookup rule "app") (jsOr (jsLookup rule "to") "any"))

/-- The From cell of the Firewall rules table: `rule.from || 'Anywhere'`. -/
def fromCell (rule : RuleJson) : String :=
  jsOr (jsLookup rule "from") "Anywhere"

/-! ## Application routing (App.tsx) -/

/-- What the application renders for a location. -/
inductive Rendered
  | loginPage
  | redirect (target : String)
  | page (name : String)
  | blank
deriving DecidableEq, Repr

/-- The routes nested inside `ProtectedRoute`/`Layout` in `App`, as
path/page pairs. -/
def innerRoutes : List (String × String) :=
  [("/", "Dashboard"), ("/firewall", "Firewall"), ("/network", "Network"),
   ("/ports", "Ports"), ("/docker", "Docker"), ("/users", "Users"),
   ("/audit", "Audit")]

/-- The routing of `App`: path `/login` renders the login page; every other
path is wrapped in `ProtectedRoute`, which renders `<Navigate to="/login" replace />`
when `isAuthenticated` is false and its children (the inner routes)
otherwise.  An inner path with no matching route renders nothing. -/
def renderApp (isAuthenticated : Bool) (path : String) : Rendered :=
  if path = "/login" then Rendered.loginPage
  else if !isAuthenticated then Rendered.redirect "/login"
  else
    match innerRoutes.find? (fun pr => pr.1 == path) with
    | some pr => Rendered.page pr.2
    | none => Rendered.blank

/-! ## Users page and auth store -/

/-- A user as held by the auth store and listed on the Users page (only the
fields the embedded code reads). -/
structure User where
  id : Nat
  username : String
deriving DecidableEq, Repr

/-- Outcome of `handleDelete` on the Users page. -/
inductive DeleteOutcome
  | errorOwnAccount
  | cancelled
  | apiDelete (userId : Nat)
deriving DecidableEq, Repr

/-- Handler `handleDelete` of the Users page: if `user.id === currentUser?.id` an
error toast is shown and the handler returns without calling the API;
otherwise the delete API is called only after the confirm dialog is
accepted. -/
def handleDelete (currentUser : Option User) (u : User) (confirmed : Bool) : DeleteOutcome :=
  if some u.id = currentUser.map (fun c => c.id) then DeleteOutcome.errorOwnAccount
  else if confirmed then DeleteOutcome.apiDelete u.id
  else DeleteOutcome.cancelled

/-- The `disabled` attribute of the per-row delete button on the Users
page: `user.id === currentUser?.id || deleteUserMutation.isPending`. -/
def deleteButtonDisabled (currentUser : Option User) (u : User) (isPending : Bool) : Bool :=
  (some u.id == currentUser.map (fun c => c.id)) || isPending

/-- The persisted state of the auth store (`token`, `user`,
`isAuthenticated`). -/
structure AuthState where
  token : Option String
  user : Option User
  isAuthenticated : Bool
deriving DecidableEq, Repr

/-- Action `login` of the auth store: the `/auth/login` request must succeed
(yielding `access_token`), then the `/auth/me` request must succeed
(yielding the user); only then is `set` called with the new token, user and
`isAuthenticated: true`.  A rejected promise at either step propagates to
the caller before `set` runs, so the stored state is unchanged.  The two
request outcomes are passed in as `loginResp` and `meResp`. -/
def login (st : AuthState) (loginResp : Option String)
    (meResp : String → Option User) : AuthState :=
  match loginResp with
  | none => st
  | some tok =>
    match meResp tok with
    | none => st
    | some u => { token := some tok, user := some u, isAuthenticated := true }

/-! ## Backend probe, adapters and coordinator

The probe, the backend adapters and the reconciliation coordinator live in
the Python backend service, which is not among the sources; each definition
below is modelled from the specification. -/

/-- The fixed preference order of the backends: ufw > firewalld >
nftables > iptables. -/
def priorityList : List Backend :=
  [Backend.ufw, Backend.firewalld, Backend.nftables, Backend.iptables]

/-- Numeric rank in the fixed preference order (smaller is preferred). -/
def priority (b : Backend) : Nat :=
  match b with
  | Backend.ufw => 0
  | Backend.firewalld => 1
  | Backend.nftables => 2
  | Backend.iptables => 3

/-- Result of `detectBackends()`: the set of available backends and the
preferred one, if any. -/
structure ProbeResult where
  available : List Backend
  preferred : Option Backend
deriving DecidableEq, Repr

/-- Modelled from the spec: `detectBackends()` (§4.1) is implemented in the
Python backend service, absent from the sources.  Given which backends pass
all availability checks, it returns the available set and, as `preferred`,
the highest-priority available backend under ufw > firewalld > nftables >
iptables, or none when no backend is available. -/
def detectBackends (avail : Backend → Bool) : ProbeResult :=
  { available := priorityList.filter avail
    preferred := (priorityList.filter avail).head? }

/-- The error taxonomy surfaced outward (spec §6). -/
inductive FwError
  | BackendUnavailable
  | UnsupportedOperation
  | InvalidRule
  | RuleNotFound
  | BackendTimeout
  | ParseError
deriving DecidableEq, Repr

/-- The backend-neutral firewall rule (spec §3), used by the modelled
adapter operations. -/
structure FirewallRule where
  id : String
  action : String
  direction : String
  port : String
  protocol : String
  source : String
  comment : Option String
deriving DecidableEq, Repr

/-- Modelled from the spec: `listRules()` of an adapter re-reads the live
backend state on every call (spec §3 ownership, §4.2); with the backend's
rule state made explicit it is the identity projection. -/
def listRules (st : List FirewallRule) : List FirewallRule := st

/-- Modelled from the spec: `deleteRule(id)` of an adapter (§4.2) re-lists
immediately prior to deleting; if no rule with the given id is present it
fails with `RuleNotFound`, otherwise it removes that rule.  The result is
the operation outcome paired with the backend's rule state afterwards. -/
def deleteRule (st : List FirewallRule) (ruleId : String) :
    Except FwError Unit × List FirewallRule :=
  if (listRules st).any (fun r => r.id == ruleId) then
    (Except.ok (), st.filter (fun r => r.id != ruleId))
  else
    (Except.error FwError.RuleNotFound, st)

/-- Modelled from the spec: under the reconciliation coordinator's
per-backend lock (§4.3, §5) each `addRule` holds the lock for its whole
add-then-relist sequence, so a mutating operation acts atomically on the
backend's rule state; an add appends the new rule to the listing. -/
def addRuleState (st : List FirewallRule) (r : FirewallRule) : List FirewallRule :=
  st ++ [r]

/-- Running a sequence of serialized `addRule` operations, in order, from a
given backend rule state. -/
def runAdds (st : List FirewallRule) (rs : List FirewallRule) : List FirewallRule :=
  rs.foldl addRuleState st

/-- An environment describing which availability checks pass for each
backend: binary presence, version-query success and (for firewalld)
service reachability. -/
structure Env where
  hasBinary : Backend → Bool
  versionOk : Backend → Bool
  serviceOk : Backend → Bool

/-- Modelled from the spec: a backend is available iff its binary is
present, its version query succeeds and, for the daemon-backed firewalld,
its service is reachable; failing any check makes it unavailable (§4.1). -/
def backendAvailable (e : Env) (b : Backend) : Bool :=
  e.hasBinary b && e.versionOk b && (b != Backend.firewalld || e.serviceOk b)

/-- Probe result `detectBackends()` computed against an environment. -/
def detectBackendsEnv (e : Env) : ProbeResult :=
  detectBackends (backendAvailable e)

/-- One invocation of the Command Runner: a binary and its argument
vector (spec §6). -/
structure Invocation where
  binary : String
  args : List String
deriving DecidableEq, Repr

/-- The native tool binary of each backend. -/
def binaryName (b : Backend) : String :=
  match b with
  | Backend.ufw => "ufw"
  | Backend.iptables => "iptables"
  | Backend.firewalld => "firewall-cmd"
  | Backend.nftables => "nft"

/-- Modelled from the spec: `addRule` against a backend (§4.2, §8
end-to-end scenarios).  If the backend is unavailable it fails with
`BackendUnavailable` without invoking the Command Runner; otherwise it
dispatches the native add command followed by the re-list used to resolve
the new rule's id.  The result is paired with the list of Command Runner
invocations performed. -/
def addRule (e : Env) (b : Backend) (r : FirewallRule) :
    Except FwError FirewallRule × List Invocation :=
  if backendAvailable e b then
    (Except.ok r,
     [⟨binaryName b, ["add", r.action, r.direction, r.port, r.protocol, r.source]⟩,
      ⟨binaryName b, ["list"]⟩])
  else
    (Except.error FwError.BackendUnavailable, [])

/-! ## Concrete instances used by witnesses -/

/-- An availability assignment with exactly nftables and iptables usable. -/
def availEx : Backend → Bool :=
  fun b => b == Backend.nftables || b == Backend.iptables

/-- A concrete rule allowing inbound TCP 443 from 10.0.0.0/8. -/
def ruleA : FirewallRule :=
  ⟨"1", "allow", "in", "443", "tcp", "10.0.0.0/8", none⟩

/-- A concrete rule allowing inbound TCP 8080 from any source. -/
def ruleB : FirewallRule :=
  ⟨"2", "allow", "in", "8080", "tcp", "any", none⟩

/-- The environment of a host with none of the four tools installed. -/
def envNone : Env :=
  ⟨fun _ => false, fun _ => true, fun _ => true⟩

/-! ## Helper lemmas -/

/-- Running a sequence of serialized adds appends the added rules, in
execution order, to the initial rule state. -/
theorem runAdds_eq_append (s rs : List FirewallRule) : runAdds s rs = s ++ rs := by
  induction rs generalizing s with
  | nil => simp [runAdds]
  | cons a as ih =>
    have : runAdds s (a :: as) = runAdds (s ++ [a]) as := rfl
    rw [this, ih]
    simp

/-! ## Theorems settling the claims -/

/-- C1 counterexample: the claim "an add-rule submitted with backend =
iptables, firewalld, or nftables is never sent to the ufw endpoint" is
false: submitting the add-rule form with backend iptables and a concrete
valid rule issues a request whose path addresses the ufw endpoint (and ufw
is not iptables). -/
theorem c1_counterexample :
    (handleSubmitAddRule Backend.iptables
        ⟨"allow", "in", "443", "tcp", "10.0.0.0/8", ""⟩).map
          (fun r => endpointBackend r.path) = some (some Backend.ufw)
    ∧ Backend.ufw ≠ Backend.iptables := by
  constructor
  · rfl
  · decide

/-- C1 (amended): every mutating firewall operation of the Firewall page
(submitting the add-rule form, enable, disable) that issues a request
directs it to the ufw backend's endpoint — and hence to exactly one
backend's endpoint — regardless of which backend is selected; in particular
an add-rule submitted with backend = iptables, firewalld, or nftables is
also sent to the ufw endpoint. -/
theorem c1_mutations_target_ufw (selected : Backend) (op : MutatingOp)
    (r : ApiRequest) (h : opRequest selected op = some r) :
    endpointBackend r.path = some Backend.ufw := by
  cases op with
  | addRule form =>
    have h' : handleSubmitAddRule selected form = some r := h
    unfold handleSubmitAddRule at h'
    by_cases hp : form.port = ""
    · rw [if_pos hp] at h'
      cases h'
    · rw [if_neg hp] at h'
      injection h' with h'
      rw [← h']
      decide
  | enable =>
    have h' : some enableUfw = some r := h
    injection h' with h'
    rw [← h']
    decide
  | disable =>
    have h' : some disableUfw = some r := h
    injection h' with h'
    rw [← h']
    decide

/-- C1 witness: the enable operation issued while iptables is the selected
backend targets the ufw endpoint. -/
theorem c1_witness : endpointBackend enableUfw.path = some Backend.ufw :=
  c1_mutations_target_ufw Backend.iptables MutatingOp.enable enableUfw rfl

/-- C2: a listening-port entry whose bind address is `0.0.0.0`, `::` or `*`
is classified public; an entry with bind address `127.0.0.1` carrying the
backend-computed `is_public` flag (spec §4.4: loopback is not public) is
classified not public; and the Ports page's public counter equals the
number of entries whose address is one of the three wildcard forms or whose
`is_public` flag is set. -/
theorem c2_public_classification (ports : List PortInfo) (p : PortInfo) :
    ((p.address = some "0.0.0.0" ∨ p.address = some "::" ∨ p.address = some "*") →
      isPublicEntry p = true)
    ∧ (p.address = some "127.0.0.1" → p.is_public = specIsPublic "127.0.0.1" →
      isPublicEntry p = false)
    ∧ publicStat ports = ports.countP (fun q =>
        decide (q.address = some "0.0.0.0" ∨ q.address = some "::" ∨
          q.address = some "*" ∨ q.is_public = true)) := by
  refine ⟨?_, ?_, ?_⟩
  · intro hw
    rcases hw with hw | hw | hw <;> simp [isPublicEntry, hw]
  · intro ha hflag
    have : p.is_public = false := by
      rw [hflag]; decide
    simp [isPublicEntry, ha, this]
  · rw [publicStat, List.countP_eq_length_filter]
    congr 1
    apply List.filter_congr
    intro q _
    apply Bool.eq_iff_iff.mpr
    simp [isPublicEntry]
    tauto

/-- C2 witness: a wildcard-bound entry is public, a loopback-bound entry
with the spec-modelled flag is not. -/
theorem c2_witness :
    isPublicEntry ⟨80, "tcp", some "0.0.0.0", false⟩ = true ∧
    isPublicEntry ⟨5432, "tcp", some "127.0.0.1", false⟩ = false :=
  ⟨(c2_public_classification [] ⟨80, "tcp", some "0.0.0.0", false⟩).1 (Or.inl rfl),
   (c2_public_classification [] ⟨5432, "tcp", some "127.0.0.1", false⟩).2.1 rfl (by decide)⟩

/-- C3: for every probe result, the preferred backend is the
highest-priority available backend under ufw > firewalld > nftables >
iptables; a backend is reported available exactly when its checks pass; the
preferred backend exists exactly when some backend is available (none being
a legitimate result of the probe, not an error), and it is one of the
available backends. -/
theorem c3_preferred (avail : Backend → Bool) :
    ((∀ b, avail b = false) → (detectBackends avail).preferred = none)
    ∧ ((∃ b, avail b = true) → ∃ p, (detectBackends avail).preferred = some p)
    ∧ (∀ b, b ∈ (detectBackends avail).available ↔ avail b = true)
    ∧ (∀ p, (detectBackends avail).preferred = some p →
        p ∈ (detectBackends avail).available ∧ avail p = true ∧
          ∀ b, avail b = true → priority p ≤ priority b) := by
  revert avail
  decide

/-- C3 witness: with exactly nftables and iptables available, the preferred
backend is nftables, which is available and of minimal priority rank among
the available backends. -/
theorem c3_witness :
    Backend.nftables ∈ (detectBackends availEx).available ∧
    availEx Backend.nftables = true ∧
    ∀ b, availEx b = true → priority Backend.nftables ≤ priority b :=
  (c3_preferred availEx).2.2.2 Backend.nftables (by decide)

/-- C4: with the reconciliation coordinator serializing the mutating
operations against a backend (at most one in flight at any time), two
concurrent `addRule` calls execute in some sequential order, and the
subsequent `listRules` contains both added rules: no lost update. -/
theorem c4_no_lost_update (st : List FirewallRule) (r1 r2 : FirewallRule)
    (order : List FirewallRule) (h : order.Perm [r1, r2]) :
    r1 ∈ listRules (runAdds st order) ∧ r2 ∈ listRules (runAdds st order) := by
  rw [listRules, runAdds_eq_append]
  exact ⟨List.mem_append_right _ (h.mem_iff.mpr (by simp)),
         List.mem_append_right _ (h.mem_iff.mpr (by simp))⟩

/-- C4 witness: the two concrete rules both appear in the listing after the
serialization that runs them in swapped order. -/
theorem c4_witness :
    ruleA ∈ listRules (runAdds [] [ruleB, ruleA]) ∧
    ruleB ∈ listRules (runAdds [] [ruleB, ruleA]) :=
  c4_no_lost_update [] ruleA ruleB [ruleB, ruleA] (List.Perm.swap ruleA ruleB [])

/-- C5: if an id does not appear in the rule listing taken immediately
before the delete, `deleteRule` fails with `RuleNotFound` and the backend's
rule state is unchanged. -/
theorem c5_delete_stale_id (st : List FirewallRule) (ruleId : String)
    (h : ∀ r ∈ listRules st, r.id ≠ ruleId) :
    deleteRule st ruleId = (Except.error FwError.RuleNotFound, st) := by
  unfold deleteRule
  rw [if_neg]
  intro hc
  rcases List.any_eq_true.mp hc with ⟨r, hr, hid⟩
  exact h r hr (by simpa using hid)

/-- C5 witness: deleting the absent id "99" from a one-rule state fails
with `RuleNotFound` and leaves the state unchanged. -/
theorem c5_witness :
    deleteRule [ruleA] "99" = (Except.error FwError.RuleNotFound, [ruleA]) :=
  c5_delete_stale_id [ruleA] "99" (by decide)

/-- C6: on a host where none of the four firewall tools is installed,
`detectBackends()` returns an empty available set and no preferred backend,
and every subsequent `addRule` call fails with `BackendUnavailable` while
performing no Command Runner invocation. -/
theorem c6_no_tools (e : Env) (h : ∀ b, e.hasBinary b = false) :
    (detectBackendsEnv e).available = [] ∧ (detectBackendsEnv e).preferred = none ∧
    ∀ b r, addRule e b r = (Except.error FwError.BackendUnavailable, []) := by
  have hav : ∀ b, backendAvailable e b = false := by
    intro b
    simp [backendAvailable, h b]
  refine ⟨?_, ?_, ?_⟩
  · simp [detectBackendsEnv, detectBackends, priorityList, hav]
  · simp [detectBackendsEnv, detectBackends, priorityList, hav]
  · intro b r
    simp [addRule, hav b]

/-- C6 witness: in the concrete all-tools-absent environment, probing
prefers no backend and a ufw `addRule` fails with `BackendUnavailable`
without any Command Runner invocation. -/
theorem c6_witness :
    (detectBackendsEnv envNone).preferred = none ∧
    addRule envNone Backend.ufw ruleA = (Except.error FwError.BackendUnavailable, []) :=
  ⟨(c6_no_tools envNone (fun _ => rfl)).2.1,
   (c6_no_tools envNone (fun _ => rfl)).2.2 Backend.ufw ruleA⟩

/-- C7 counterexample: the claim "the source address is carried in a field
named `source`" is false for the rules the presentation layer consumes: a
rule delivered in exactly the claimed shape, with the source address under
`source`, renders its From cell as the default "Anywhere", while a rule
carrying the address under `from` renders it — the rules table reads
`rule.from`, not `rule.source`. -/
theorem c7_counterexample :
    fromCell [("id", "1"), ("action", "allow"), ("direction", "in"), ("port", "443"),
      ("protocol", "tcp"), ("source", "10.0.0.0/8"), ("comment", "")] = "Anywhere"
    ∧ fromCell [("id", "1"), ("action", "allow"), ("direction", "in"), ("port", "443"),
      ("protocol", "tcp"), ("from", "10.0.0.0/8"), ("comment", "")] = "10.0.0.0/8" := by
  constructor <;> rfl

/-- C7 (amended): the presentation layer consumes the source address of a
rule from a field named `from`: the From cell of the rules table displays
the value of `from` whenever it is present and non-empty, and a `source`
field has no effect on the rendering. -/
theorem c7_from_field (rule : RuleJson) (h : jsLookup rule "from" ≠ "") :
    fromCell rule = jsLookup rule "from"
    ∧ ∀ v, fromCell (("source", v) :: rule) = fromCell rule := by
  constructor
  · unfold fromCell jsOr
    rw [if_neg h]
  · intro v
    rfl

/-- C7 witness: a rule carrying its source address under `from` has that
address displayed in the From cell. -/
theorem c7_witness :
    fromCell [("from", "10.0.0.0/8")] = jsLookup [("from", "10.0.0.0/8")] "from" :=
  (c7_from_field [("from", "10.0.0.0/8")] (by decide)).1

/-- C8: for every application path other than `/login`, an unauthenticated
visitor is rendered a redirect to `/login` instead of the requested page,
and an authenticated visitor is rendered the requested page. -/
theorem c8_protected_routes (path : String) (h : path ≠ "/login") :
    renderApp false path = Rendered.redirect "/login"
    ∧ ∀ name, (path, name) ∈ innerRoutes → renderApp true path = Rendered.page name := by
  constructor
  · unfold renderApp
    rw [if_neg h]
    rfl
  · intro name hm
    unfold innerRoutes at hm
    simp only [List.mem_cons, List.not_mem_nil, or_false, Prod.mk.injEq] at hm
    rcases hm with ⟨rfl, rfl⟩ | ⟨rfl, rfl⟩ | ⟨rfl, rfl⟩ | ⟨rfl, rfl⟩ |
      ⟨rfl, rfl⟩ | ⟨rfl, rfl⟩ | ⟨rfl, rfl⟩ <;> rfl

/-- C8 witness: at `/firewall`, an unauthenticated visitor is redirected to
`/login` and an authenticated one gets the Firewall page. -/
theorem c8_witness :
    renderApp false "/firewall" = Rendered.redirect "/login"
    ∧ renderApp true "/firewall" = Rendered.page "Firewall" :=
  ⟨(c8_protected_routes "/firewall" (by decide)).1,
   (c8_protected_routes "/firewall" (by decide)).2 "Firewall" (by decide)⟩

/-- C9: for every listed user whose id equals the current user's id, the
delete handler reports the own-account error without calling the delete
API, and the corresponding delete button is disabled. -/
theorem c9_no_self_delete (cu u : User) (confirmed isPending : Bool)
    (h : u.id = cu.id) :
    handleDelete (some cu) u confirmed = DeleteOutcome.errorOwnAccount
    ∧ deleteButtonDisabled (some cu) u isPending = true := by
  constructor
  · simp [handleDelete, h]
  · simp [deleteButtonDisabled, h]

/-- C9 witness: the logged-in user cannot delete their own row. -/
theorem c9_witness :
    handleDelete (some ⟨1, "admin"⟩) ⟨1, "admin"⟩ true = DeleteOutcome.errorOwnAccount
    ∧ deleteButtonDisabled (some ⟨1, "admin"⟩) ⟨1, "admin"⟩ false = true :=
  c9_no_self_delete ⟨1, "admin"⟩ ⟨1, "admin"⟩ true false rfl

/-- C10: login updates the auth store's token, user and isAuthenticated
only after both the login request and the user-info request succeed; if
either fails, the stored state is unchanged. -/
theorem c10_login_atomic (st : AuthState) (loginResp : Option String)
    (meResp : String → Option User) :
    (loginResp = none → login st loginResp meResp = st)
    ∧ (∀ tok, loginResp = some tok → meResp tok = none →
        login st loginResp meResp = st)
    ∧ (∀ tok u, loginResp = some tok → meResp tok = some u →
        login st loginResp meResp =
          { token := some tok, user := some u, isAuthenticated := true }) := by
  refine ⟨fun h => ?_, fun tok h hm => ?_, fun tok u h hm => ?_⟩
  · simp [login, h]
  · simp [login, h, hm]
  · simp [login, h, hm]

/-- C10 witness: a failed user-info request leaves the initial
(unauthenticated) state unchanged. -/
theorem c10_witness :
    login ⟨none, none, false⟩ (some "tok") (fun _ => none) = ⟨none, none, false⟩ :=
  (c10_login_atomic ⟨none, none, false⟩ (some "tok") (fun _ => none)).2.1 "tok" rfl rfl

end FirewallUI
